import Mathlib

/-!
Shallow embedding of the VoxFetch-CESI page-capture pipeline, verified
against the natural-language specification.  The definitions below are
translated from the TypeScript sources: the cookie-based auth detector,
the catalog-status prober, the print-to-PDF geometry computation, the
canvas pixel-sampling validation, the zero-page reload logic, and the
credential obfuscation codec.
-/

namespace VoxFetch

/-! ## String machinery modelling the JavaScript primitives used by the code -/

/-- Model of JS `toLowerCase` restricted to ASCII letters (all needles in the
source are ASCII apart from already-lowercase accented characters, which
`toLowerCase` leaves unchanged just as this map does). -/
def asciiLower (c : Char) : Char :=
  if 'A' ≤ c && c ≤ 'Z' then Char.ofNat (c.toNat + 32) else c

/-- Lowercase a string character-wise, modelling JS `String.prototype.toLowerCase`
on strings whose uppercase letters are ASCII. -/
def lowerStr (s : String) : String :=
  String.mk (s.data.map asciiLower)

/-- Substring test on character lists, modelling JS `String.prototype.includes`. -/
def containsSub : List Char → List Char → Bool
  | [], needle => needle.isEmpty
  | a :: t, needle => needle.isPrefixOf (a :: t) || containsSub t needle

/-- String-level wrapper for `containsSub`. -/
def containsStr (hay needle : String) : Bool :=
  containsSub hay.data needle.data

/-- The apostrophe character, used to build needles containing it. -/
def apoChar : Char := Char.ofNat 39

/-! ## Auth Detector (src/unnamed/part_002, `detectAuthFromCookies`) -/

/-- A browser cookie as the detector sees it: only name and domain matter. -/
structure Cookie where
  name : String
  domain : String
deriving Repr, DecidableEq

/-- Result of the auth detector (`AuthCheck` in the source). -/
structure AuthCheck where
  authenticated : Bool
  note : String
  matched : List String
deriving Repr, DecidableEq

/-- Source `normalizeDomain`: strip one leading dot
(`d.startsWith(".") ? d.slice(1) : d`), phrased on the character list. -/
def normalizeDomain (d : String) : String :=
  match d.data with
  | [] => d
  | c :: rest => if c = '.' then String.mk rest else d

/-- Source regex test `/^sfsessid/i.test(name)`: case-insensitive ASCII prefix. -/
def isSessionName (n : String) : Bool :=
  "sfsessid".data.isPrefixOf (n.data.map asciiLower)

/-- Source regex test `/^_xpriv/i.test(name)`. -/
def isXprivName (n : String) : Bool :=
  "_xpriv".data.isPrefixOf (n.data.map asciiLower)

/-- The platform filter the source applies:
`normalizeDomain(c.domain).includes("scholarvox.com")` (a substring test). -/
def isPlatformCookie (c : Cookie) : Bool :=
  containsStr (normalizeDomain c.domain) "scholarvox.com"

/-- The platform-domain membership the spec describes: after stripping a
leading dot the domain equals `scholarvox.com` or ends with `.scholarvox.com`.
Stated from the words of the specification, for comparison with
`isPlatformCookie` which is translated from the source. -/
def specPlatformDomain (d : String) : Bool :=
  let n := normalizeDomain d
  n == "scholarvox.com" || ".scholarvox.com".data.reverse.isPrefixOf n.data.reverse

/-- Shallow embedding of `detectAuthFromCookies` from src/unnamed/part_002:
filter to platform cookies, authenticate unconditionally on a `sfsessid`
prefixed cookie (collecting all of them into `matched`), otherwise fall
through to the heuristic branch whose `authenticated` is
`hasSession && (...)` and hence false. -/
def detectAuthFromCookies (all : List Cookie) : AuthCheck :=
  let svx := all.filter (fun c => isPlatformCookie c)
  let hasSession := svx.any (fun c => isSessionName c.name)
  if hasSession then
    { authenticated := true
      note := "Authenticated (SFSESSID on scholarvox)."
      matched := (svx.filter (fun c => isSessionName c.name)).map
        (fun c => c.name ++ "@" ++ normalizeDomain c.domain) }
  else
    let hasXpriv := svx.any (fun c => isXprivName c.name)
    let hasPosthog := svx.any (fun c => containsStr (lowerStr c.name) "posthog")
    let hasVisitor := svx.any (fun c => containsStr (lowerStr c.name) "visitor_unique")
    let authenticated := hasSession && (hasXpriv || hasPosthog || hasVisitor)
    { authenticated := authenticated
      note := if authenticated then "Authenticated via SFSESSID + signal."
              else "Not authenticated: missing SFSESSID on scholarvox.com."
      matched := [] }

/-! ## Catalog Prober (src/unnamed/part_003, `checkBookStatus`) -/

/-- Terminal classification of a catalog probe (`BookStatus` in the source). -/
inductive BookStatus where
  | FOUND
  | REMOVED
  | NOT_FOUND
  | AVAILABLE_SOON
deriving Repr, DecidableEq

/-- Abstract view of what the browser reports to `checkBookStatus`:
`respOk` models `resp && resp.ok()` (navigation succeeded with an OK
HTTP response); the remaining fields are the DOM observations the
function makes, in the order it makes them. -/
structure ProbePage where
  respOk : Bool
  finalUrl : String
  removedVisible : Bool
  removedInnerText : String
  notAvailVisible : Bool
  pageContent : String
  titleText : String
deriving Repr, DecidableEq

/-- The source regex `/404|not[-_ ]found|error/i` applied to the final URL. -/
def urlLooksError (u : String) : Bool :=
  let l := lowerStr u
  containsStr l "404" || containsStr l "not-found" || containsStr l "not_found" ||
    containsStr l "not found" || containsStr l "error"

/-- Needle of the dead removed-text branch: the French removal message,
which contains an apostrophe. -/
def removedNeedle : String :=
  "cet ouvrage n" ++ String.singleton apoChar ++ "est plus disponible"

/-- Lowercase needle of the available-soon check, exactly as in the source. -/
def soonNeedleLower : String := "cet ouvrage sera bientôt disponible"

/-- Mixed-case form of the available-soon message as the page displays it. -/
def soonNeedle : String := "Cet ouvrage sera bientôt disponible"

/-- Shallow embedding of `checkBookStatus` from src/unnamed/part_003.
Branches appear in the exact order of the source; the second REMOVED
branch is dead code in the source (its text is only read when
`removedVisible` holds, but that case already returned) and is kept
verbatim for faithfulness. -/
def checkBookStatus (p : ProbePage) : BookStatus :=
  if !p.respOk then .NOT_FOUND
  else if urlLooksError p.finalUrl then .NOT_FOUND
  else if p.removedVisible then .REMOVED
  else if containsStr (lowerStr (if p.removedVisible then p.removedInnerText else ""))
      removedNeedle then .REMOVED
  else if p.notAvailVisible then .REMOVED
  else if containsStr (lowerStr p.pageContent) soonNeedleLower then .AVAILABLE_SOON
  else if 0 < p.titleText.trim.length then .FOUND
  else .NOT_FOUND

/-! ## Page Capture geometry (src/src/utils/printToPdf.ts, lines 466-502) -/

/-- The geometric parameters handed to the print-to-PDF primitive. -/
structure PdfParams where
  widthInches : ℚ
  heightInches : ℚ
  scale : ℚ
deriving Repr, DecidableEq

/-- Shallow embedding of the dimension and scale computation of
`printScholarVoxPageToPDF`: inches at 96 DPI, auto scale linear in the
detected width with reference 1080px at scale 0.4, and the caller scale
used only when it differs from the 0.4 default sentinel. -/
def printPdfParams (detectedWidth detectedHeight callerScale : ℚ) : PdfParams :=
  let pageWidthInches := detectedWidth / 96
  let pageHeightInches := detectedHeight / 96
  let referenceWidth : ℚ := 1080
  let referenceScale : ℚ := 0.4
  let autoScale := referenceScale * (detectedWidth / referenceWidth)
  let finalScale := if callerScale ≠ 0.4 then callerScale else autoScale
  { widthInches := pageWidthInches
    heightInches := pageHeightInches
    scale := finalScale }

/-! ## Render Stabilizer canvas validation (src/src/utils/printToPdf.ts, 205-272) -/

/-- One RGBA sample as `getImageData` returns it (channel values 0-255). -/
structure Pixel where
  r : Nat
  g : Nat
  b : Nat
  a : Nat
deriving Repr, DecidableEq

/-- A canvas as the validator sees it: dimensions, whether `getContext`
returned a context, and the pixel read back at each coordinate. -/
structure CanvasData where
  width : Nat
  height : Nat
  hasCtx : Bool
  pix : Nat → Nat → Pixel

/-- The three interior sample coordinates of `canvasHasNonWhitePixel`:
`Math.floor` of the quartile, center and three-quartile positions (exact
in doubles for integer dimensions, hence natural division here). -/
def samplePoints (w h : Nat) : List (Nat × Nat) :=
  [(w / 4, h / 4), (w / 2, h / 2), (3 * w / 4, 3 * h / 4)]

/-- Whether one clamped sample counts as colored in the source:
alpha above zero and at least one RGB channel below 250. -/
def isColoredSample (cv : CanvasData) (p : Nat × Nat) : Bool :=
  let d := cv.pix (min (cv.width - 1) p.1) (min (cv.height - 1) p.2)
  decide (0 < d.a) && (decide (d.r < 250) || decide (d.g < 250) || decide (d.b < 250))

/-- Shallow embedding of `canvasHasNonWhitePixel`: false without a 2D
context or when a dimension is below 10, otherwise true exactly when at
least one of the three samples is colored. -/
def canvasHasNonWhitePixel (cv : CanvasData) : Bool :=
  if !cv.hasCtx || cv.width < 10 || cv.height < 10 then false
  else 0 < (samplePoints cv.width cv.height).countP (isColoredSample cv)

/-- The canvas branch of the retry-loop body (lines 258-272): the canvas
candidate is accepted, returning its dimensions, only when both
dimensions exceed 10 and the pixel sampling validates. -/
def canvasRenderResult (cv : CanvasData) : Option (Nat × Nat) :=
  if 10 < cv.width && 10 < cv.height && canvasHasNonWhitePixel cv then
    some (cv.width, cv.height)
  else none

/-- The bounded retry loop of the render stabilizer: run the attempt body
up to the given budget, succeeding on the first attempt that returns a
result and timing out (`none`) when the budget is exhausted. -/
def stabilizeLoop (step : Nat → Option (Nat × Nat)) : Nat → Option (Nat × Nat)
  | 0 => none
  | n + 1 =>
    match step n with
    | some r => some r
    | none => stabilizeLoop step n

/-! ## Zero-page reload logic (src/unnamed/part_003, `downloadBook`) -/

/-- Outcome of the page-count resolution: either proceed with a count,
or fail fatally; both record how many reloads were performed. -/
inductive ZeroPageOutcome where
  | proceed (pages : Nat) (reloads : Nat)
  | fatalZero (reloads : Nat)
deriving Repr, DecidableEq

/-- Number of reloads an outcome performed. -/
def ZeroPageOutcome.reloads : ZeroPageOutcome → Nat
  | .proceed _ r => r
  | .fatalZero r => r

/-- Shallow embedding of the zero-page handling in `downloadBook`:
`reads i` is the page count the pagination container reports on the
i-th read.  The first read is taken; on zero the iframe context is
reloaded exactly once and the count re-read; a second zero throws. -/
def resolveTotalPages (reads : Nat → Nat) : ZeroPageOutcome :=
  let first := reads 0
  if first = 0 then
    let second := reads 1
    if second = 0 then .fatalZero 1 else .proceed second 1
  else .proceed first 0

/-! ## Credential obfuscation codec (src/unnamed/part_005, `encode`/`decode`) -/

/-- UTF-16 code units of the fixed XOR key string `voxfetch-cesi-2025`. -/
def keyCodes : List Nat := "voxfetch-cesi-2025".data.map Char.toNat

/-- The key code unit used at string index `i` (`key.charCodeAt(i % key.length)`). -/
def keyAt (i : Nat) : Nat := keyCodes.getD (i % keyCodes.length) 0

/-- XOR the code units of a string against the cycled key, starting at index `i`. -/
def xorFrom (i : Nat) : List Nat → List Nat
  | [] => []
  | c :: cs => (c ^^^ keyAt i) :: xorFrom (i + 1) cs

/-- The XOR pass both `encode` and `decode` apply. -/
def xorWithKey (cs : List Nat) : List Nat := xorFrom 0 cs

/-- The base64 alphabet in index order. -/
def b64Alphabet : List Char :=
  "ABCDEFGHIJKLMNOPQRSTUVWXYZabcdefghijklmnopqrstuvwxyz0123456789+/".data

/-- Character of a sextet value. -/
def sextetChar (n : Nat) : Char := b64Alphabet.getD n 'A'

/-- Sextet value of an alphabet character. -/
def sextetVal (c : Char) : Nat := b64Alphabet.indexOf c

/-- RFC 4648 base64 of a byte list with padding, as Node
`Buffer.prototype.toString("base64")` produces it. -/
def b64encode : List Nat → List Char
  | [] => []
  | [a] =>
    [sextetChar (a / 4), sextetChar (a % 4 * 16), '=', '=']
  | [a, b] =>
    [sextetChar (a / 4), sextetChar (a % 4 * 16 + b / 16), sextetChar (b % 16 * 4), '=']
  | a :: b :: c :: rest =>
    sextetChar (a / 4) :: sextetChar (a % 4 * 16 + b / 16) ::
      sextetChar (b % 16 * 4 + c / 64) :: sextetChar (c % 64) :: b64encode rest

/-- Base64 decoding of well-formed padded input, as Node
`Buffer.from(s, "base64")` performs it on such input: a quartet ending in
two pads yields one byte, one pad yields two bytes, no pad yields three. -/
def b64decode : List Char → List Nat
  | e1 :: e2 :: e3 :: e4 :: rest =>
    if e3 = '=' then [sextetVal e1 * 4 + sextetVal e2 / 16]
    else if e4 = '=' then
      [sextetVal e1 * 4 + sextetVal e2 / 16, sextetVal e2 % 16 * 16 + sextetVal e3 / 4]
    else
      (sextetVal e1 * 4 + sextetVal e2 / 16) ::
        (sextetVal e2 % 16 * 16 + sextetVal e3 / 4) ::
        (sextetVal e3 % 4 * 64 + sextetVal e4) :: b64decode rest
  | _ => []

/-- UTF-8 bytes of one code point, as Node `Buffer.from(string)` emits
for code units below 0x10000. -/
def utf8EncodeChar (c : Nat) : List Nat :=
  if c < 128 then [c]
  else if c < 2048 then [192 + c / 64, 128 + c % 64]
  else [224 + c / 4096, 128 + c / 64 % 64, 128 + c % 64]

/-- UTF-8 encoding of a code-unit list. -/
def utf8EncodeList : List Nat → List Nat
  | [] => []
  | c :: cs => utf8EncodeChar c ++ utf8EncodeList cs

/-- UTF-8 decoding back to code units (well-formed input; the codec round
trip only exercises the single-byte branch). -/
def utf8Decode : List Nat → List Nat
  | [] => []
  | [b] => if b < 128 then [b] else []
  | [b, b2] =>
    if b < 128 then b :: utf8Decode [b2]
    else if b < 224 then [(b - 192) * 64 + b2 % 64]
    else []
  | b :: b2 :: b3 :: rest =>
    if b < 128 then b :: utf8Decode (b2 :: b3 :: rest)
    else if b < 224 then ((b - 192) * 64 + b2 % 64) :: utf8Decode (b3 :: rest)
    else ((b - 224) * 4096 + b2 % 64 * 64 + b3 % 64) :: utf8Decode rest

/-- Shallow embedding of `encode` from src/unnamed/part_005: XOR the code
units against the cycled key, serialize the resulting string as UTF-8
bytes, and base64 them. -/
def encode (codes : List Nat) : List Char :=
  b64encode (utf8EncodeList (xorWithKey codes))

/-- Shallow embedding of `decode`: base64 to bytes, UTF-8 decode to code
units, XOR against the cycled key again. -/
def decode (chars : List Char) : List Nat :=
  xorWithKey (utf8Decode (b64decode chars))

/-! ## Concrete inputs used by the witness theorems -/

/-- A cookie jar holding a session cookie on the platform next to noise. -/
def demoAuthCookies : List Cookie :=
  [⟨"other", "example.com"⟩, ⟨"SFSESSID42", ".univ.scholarvox.com"⟩,
   ⟨"posthog_k", "scholarvox.com"⟩]

/-- A cookie jar with heuristic cookies but no platform session cookie. -/
def demoHeuristicCookies : List Cookie :=
  [⟨"_xpriv_pref", "scholarvox.com"⟩, ⟨"ph_posthog", ".scholarvox.com"⟩,
   ⟨"visitor_unique_id", "univ.scholarvox.com"⟩, ⟨"sfsessid_elsewhere", "other.com"⟩]

/-- Cookies before and after an inserted outsider, and the outsider itself. -/
def demoPre : List Cookie := [⟨"sfsessid_a", "univ.scholarvox.com"⟩]

/-- Cookies after the insertion point. -/
def demoPost : List Cookie := [⟨"posthog", "scholarvox.com"⟩]

/-- A session-named cookie on an unrelated domain. -/
def demoOutsider : Cookie := ⟨"sfsessid_b", "library.example.org"⟩

/-- A probe observation with a visible removal flag and a stale title. -/
def demoRemovedPage : ProbePage :=
  { respOk := true
    finalUrl := "https://univ.scholarvox.com/catalog/book/docid/88888"
    removedVisible := true
    removedInnerText := ""
    notAvailVisible := false
    pageContent := ""
    titleText := "Stale Title" }

/-- A probe observation carrying the available-soon message and a stale title. -/
def demoSoonPage : ProbePage :=
  { respOk := true
    finalUrl := "https://univ.scholarvox.com/catalog/book/docid/77777"
    removedVisible := false
    removedInnerText := ""
    notAvailVisible := false
    pageContent := "<p>Cet ouvrage sera bientôt disponible</p>"
    titleText := "Stale Title" }

/-- A failed navigation whose DOM nevertheless carries every marker. -/
def demoNavFailPage : ProbePage :=
  { respOk := false
    finalUrl := "https://univ.scholarvox.com/catalog/book/docid/66666"
    removedVisible := true
    removedInnerText := "x"
    notAvailVisible := true
    pageContent := "Cet ouvrage sera bientôt disponible"
    titleText := "A Title" }

/-- An all-white opaque canvas of 100 by 100 pixels. -/
def demoWhiteCanvas : CanvasData :=
  { width := 100, height := 100, hasCtx := true
    pix := fun _ _ => ⟨255, 255, 255, 255⟩ }

/-! ## Theorems -/

/-- C1: the page-capture geometry derives the physical size as pixel
dimensions over 96 DPI and the automatic print scale as 0.4 times the
width over the 1080 reference; in particular 1080 by 1332 pixels yield
11.25 by 13.875 inches (within one hundredth) and widths 1080 and 2160
yield scales exactly 0.4 and 0.8. -/
theorem pdf_dimensions_and_auto_scale :
    (∀ w h : ℚ, (printPdfParams w h 0.4).widthInches = w / 96 ∧
      (printPdfParams w h 0.4).heightInches = h / 96 ∧
      (printPdfParams w h 0.4).scale = 0.4 * (w / 1080)) ∧
    |(printPdfParams 1080 1332 0.4).widthInches - 11.25| ≤ 0.01 ∧
    |(printPdfParams 1080 1332 0.4).heightInches - 13.875| ≤ 0.01 ∧
    (printPdfParams 1080 1332 0.4).scale = 0.4 ∧
    (printPdfParams 2160 1332 0.4).scale = 0.8 := by
  refine ⟨fun w h => ⟨rfl, rfl, ?_⟩, ?_, ?_, ?_, ?_⟩ <;> norm_num [printPdfParams]

/-- C8: the caller-supplied scale is used exactly when it differs from the
0.4 default sentinel, and a caller scale equal to the sentinel falls back
to the auto-computed 0.4 times width over 1080. -/
theorem scale_sentinel_override (w h s : ℚ) :
    (s ≠ 0.4 → (printPdfParams w h s).scale = s) ∧
    (s = 0.4 → (printPdfParams w h s).scale = 0.4 * (w / 1080)) := by
  constructor
  · intro hs
    simp [printPdfParams, hs]
  · intro hs
    subst hs
    norm_num [printPdfParams]

/-- Witness for C8 at concrete scales 0.7 (override) and 0.4 (auto). -/
theorem scale_sentinel_override_witness :
    (printPdfParams 1080 1332 0.7).scale = 0.7 ∧
    (printPdfParams 2160 1332 0.4).scale = 0.4 * (2160 / 1080) :=
  ⟨(scale_sentinel_override 1080 1332 0.7).1 (by norm_num),
   (scale_sentinel_override 2160 1332 0.4).2 rfl⟩

/-- C9: a failed navigation or non-OK HTTP response makes `checkBookStatus`
return NOT_FOUND, whatever the DOM holds. -/
theorem nav_failure_not_found (p : ProbePage) (h : p.respOk = false) :
    checkBookStatus p = BookStatus.NOT_FOUND := by
  simp [checkBookStatus, h]

/-- Witness for C9 on a failed navigation whose DOM carries every marker. -/
theorem nav_failure_not_found_witness :
    checkBookStatus demoNavFailPage = BookStatus.NOT_FOUND :=
  nav_failure_not_found demoNavFailPage rfl

/-- C7: the zero-page handler reloads at most once; two zero readings fail
fatally after exactly one reload, a recovered second reading proceeds after
exactly one reload, and a non-zero first reading proceeds with no reload. -/
theorem zero_pages_single_reload (reads : Nat → Nat) :
    (resolveTotalPages reads).reloads ≤ 1 ∧
    (reads 0 = 0 → reads 1 = 0 → resolveTotalPages reads = ZeroPageOutcome.fatalZero 1) ∧
    (reads 0 = 0 → reads 1 ≠ 0 → resolveTotalPages reads = ZeroPageOutcome.proceed (reads 1) 1) ∧
    (reads 0 ≠ 0 → resolveTotalPages reads = ZeroPageOutcome.proceed (reads 0) 0) := by
  refine ⟨?_, fun h0 h1 => ?_, fun h0 h1 => ?_, fun h0 => ?_⟩
  · by_cases h0 : reads 0 = 0
    · by_cases h1 : reads 1 = 0 <;>
        simp [resolveTotalPages, ZeroPageOutcome.reloads, h0, h1]
    · simp [resolveTotalPages, ZeroPageOutcome.reloads, h0]
  · simp [resolveTotalPages, h0, h1]
  · simp [resolveTotalPages, h0, h1]
  · simp [resolveTotalPages, h0]

/-- Witness for C7 on a pagination container that always reports zero. -/
theorem zero_pages_single_reload_witness :
    (resolveTotalPages (fun _ => 0)).reloads ≤ 1 ∧
    resolveTotalPages (fun _ => 0) = ZeroPageOutcome.fatalZero 1 :=
  ⟨(zero_pages_single_reload (fun _ => 0)).1,
   (zero_pages_single_reload (fun _ => 0)).2.1 rfl rfl⟩

/-- C3: any cookie list holding a platform cookie with a case-insensitive
`sfsessid` name prefix is authenticated, and `matched` is exactly the
name-at-domain rendering of every such session cookie, in order. -/
theorem sfsessid_authenticates (all : List Cookie)
    (h : ∃ c ∈ all, isPlatformCookie c = true ∧ isSessionName c.name = true) :
    (detectAuthFromCookies all).authenticated = true ∧
    (detectAuthFromCookies all).matched =
      ((all.filter (fun c => isPlatformCookie c)).filter
        (fun c => isSessionName c.name)).map
        (fun c => c.name ++ "@" ++ normalizeDomain c.domain) := by
  obtain ⟨c, hc, hp, hs⟩ := h
  have hmem : c ∈ all.filter (fun c => isPlatformCookie c) :=
    List.mem_filter.mpr ⟨hc, hp⟩
  have hses : (all.filter (fun c => isPlatformCookie c)).any
      (fun c => isSessionName c.name) = true :=
    List.any_eq_true.mpr ⟨c, hmem, hs⟩
  unfold detectAuthFromCookies
  simp only [hses, if_true]
  exact ⟨trivial, trivial⟩

/-- Witness for C3 on a jar holding one upper-case session cookie. -/
theorem sfsessid_authenticates_witness :
    (detectAuthFromCookies demoAuthCookies).authenticated = true ∧
    (detectAuthFromCookies demoAuthCookies).matched =
      ["SFSESSID42@univ.scholarvox.com"] :=
  ⟨(sfsessid_authenticates demoAuthCookies (by decide)).1,
   ((sfsessid_authenticates demoAuthCookies (by decide)).2).trans (by decide)⟩

/-- C4: a cookie list in which no platform cookie carries the `sfsessid`
prefix is never authenticated, heuristic cookies notwithstanding. -/
theorem no_sfsessid_not_authenticated (all : List Cookie)
    (h : ∀ c ∈ all, isPlatformCookie c = true → isSessionName c.name = false) :
    (detectAuthFromCookies all).authenticated = false := by
  have hses : (all.filter (fun c => isPlatformCookie c)).any
      (fun c => isSessionName c.name) = false := by
    rw [Bool.eq_false_iff]
    intro hx
    obtain ⟨c, hcmem, hcs⟩ := List.any_eq_true.mp hx
    obtain ⟨hcall, hcplat⟩ := List.mem_filter.mp hcmem
    rw [h c hcall hcplat] at hcs
    exact Bool.false_ne_true hcs
  unfold detectAuthFromCookies
  simp only [hses, Bool.false_eq_true, if_false, Bool.false_and]

/-- Witness for C4 on a jar of heuristic cookies and an off-platform
session cookie. -/
theorem no_sfsessid_not_authenticated_witness :
    (detectAuthFromCookies demoHeuristicCookies).authenticated = false :=
  no_sfsessid_not_authenticated demoHeuristicCookies (by decide)

/-- C5 counterexample: the source counts a cookie by substring, not by
domain suffix.  A session cookie on `scholarvox.com.evil.com` is not on
the platform domain the claim describes, yet it alone flips the detector
from not authenticated to authenticated. -/
theorem platform_suffix_counterexample :
    specPlatformDomain "scholarvox.com.evil.com" = false ∧
    isPlatformCookie ⟨"sfsessid1", "scholarvox.com.evil.com"⟩ = true ∧
    (detectAuthFromCookies [⟨"sfsessid1", "scholarvox.com.evil.com"⟩]).authenticated = true ∧
    (detectAuthFromCookies []).authenticated = false := by
  decide

/-- C5 amended: the detector counts a cookie as platform exactly when its
domain, after stripping one leading dot, contains `scholarvox.com` as a
substring; cookies whose domain lacks that substring never influence the
result, wherever they sit in the list. -/
theorem nonmatching_cookie_no_influence (pre post : List Cookie) (c : Cookie)
    (h : containsStr (normalizeDomain c.domain) "scholarvox.com" = false) :
    detectAuthFromCookies (pre ++ c :: post) = detectAuthFromCookies (pre ++ post) := by
  have hc : isPlatformCookie c = false := h
  have hfilter : (pre ++ c :: post).filter (fun x => isPlatformCookie x) =
      (pre ++ post).filter (fun x => isPlatformCookie x) := by
    simp [List.filter_append, List.filter_cons, hc]
  unfold detectAuthFromCookies
  rw [hfilter]

/-- Witness for the amended C5: inserting a session-named cookie of an
unrelated domain leaves the detector output unchanged. -/
theorem nonmatching_cookie_no_influence_witness :
    detectAuthFromCookies (demoPre ++ demoOutsider :: demoPost) =
      detectAuthFromCookies (demoPre ++ demoPost) :=
  nonmatching_cookie_no_influence demoPre demoPost demoOutsider (by decide)

/-- Helper: a loop body that never succeeds makes the bounded retry loop
time out at every budget. -/
theorem stabilizeLoop_const_none (step : Nat → Option (Nat × Nat))
    (hstep : ∀ n, step n = none) : ∀ n, stabilizeLoop step n = none := by
  intro n
  induction n with
  | zero => rfl
  | succ k ih => simp [stabilizeLoop, hstep k, ih]

/-- C2: a canvas whose three clamped interior samples are each transparent
or near-white fails the pixel validation, is never accepted by the loop
body, and an attempt stream made of such canvases exhausts the 30-attempt
budget without success. -/
theorem white_canvas_rejected (cv : CanvasData)
    (h : ∀ p ∈ samplePoints cv.width cv.height,
      (cv.pix (min (cv.width - 1) p.1) (min (cv.height - 1) p.2)).a = 0 ∨
      (250 ≤ (cv.pix (min (cv.width - 1) p.1) (min (cv.height - 1) p.2)).r ∧
       250 ≤ (cv.pix (min (cv.width - 1) p.1) (min (cv.height - 1) p.2)).g ∧
       250 ≤ (cv.pix (min (cv.width - 1) p.1) (min (cv.height - 1) p.2)).b)) :
    canvasHasNonWhitePixel cv = false ∧ canvasRenderResult cv = none ∧
    stabilizeLoop (fun _ => canvasRenderResult cv) 30 = none := by
  have hcol : ∀ p ∈ samplePoints cv.width cv.height, isColoredSample cv p = false := by
    intro p hp
    rcases h p hp with ha | hw <;>
      simp only [isColoredSample, Bool.and_eq_false_iff, Bool.or_eq_false_iff,
        decide_eq_false_iff_not, Nat.not_lt] <;>
      omega
  have hcnt : (samplePoints cv.width cv.height).countP (isColoredSample cv) = 0 :=
    List.countP_eq_zero.mpr (by intro p hp; simp [hcol p hp])
  have h1 : canvasHasNonWhitePixel cv = false := by
    unfold canvasHasNonWhitePixel
    split
    · rfl
    · simp [hcnt]
  refine ⟨h1, ?_, ?_⟩
  · simp [canvasRenderResult, h1]
  · exact stabilizeLoop_const_none _ (fun _ => by simp [canvasRenderResult, h1]) 30

/-- Witness for C2 on the all-white opaque demo canvas. -/
theorem white_canvas_rejected_witness :
    canvasHasNonWhitePixel demoWhiteCanvas = false ∧
    canvasRenderResult demoWhiteCanvas = none ∧
    stabilizeLoop (fun _ => canvasRenderResult demoWhiteCanvas) 30 = none :=
  white_canvas_rejected demoWhiteCanvas (by decide)

/-- Helper: `List.isPrefixOf` is preserved by mapping a function over both lists. -/
theorem isPrefixOf_map (f : Char → Char) :
    ∀ (n h : List Char), n.isPrefixOf h = true → (n.map f).isPrefixOf (h.map f) = true
  | [], _, _ => by simp [List.isPrefixOf]
  | _ :: _, [], h => by simp [List.isPrefixOf] at h
  | a :: as, b :: bs, h => by
    simp only [List.isPrefixOf, Bool.and_eq_true, beq_iff_eq] at h
    obtain ⟨h1, h2⟩ := h
    subst h1
    simp only [List.map_cons, List.isPrefixOf, Bool.and_eq_true, beq_iff_eq]
    exact ⟨trivial, isPrefixOf_map f as bs h2⟩

/-- Helper: substring containment is preserved by mapping a function over
both the haystack and the needle. -/
theorem containsSub_map (f : Char → Char) :
    ∀ (hay needle : List Char), containsSub hay needle = true →
      containsSub (hay.map f) (needle.map f) = true
  | [], needle, h => by
    have hn : needle = [] := by
      cases needle with
      | nil => rfl
      | cons a t => simp [containsSub, List.isEmpty] at h
    subst hn
    rfl
  | a :: t, needle, h => by
    simp only [containsSub, Bool.or_eq_true] at h
    simp only [List.map_cons, containsSub, Bool.or_eq_true]
    rcases h with h1 | h2
    · exact Or.inl (by simpa using isPrefixOf_map f needle (a :: t) h1)
    · exact Or.inr (containsSub_map f t needle h2)

/-- C6: with a live OK response and a non-error URL, a visible removal
flag or a visible not-available panel yields REMOVED, and the
available-soon message with no removal markers yields AVAILABLE_SOON —
all regardless of the title text, which is only consulted afterwards. -/
theorem removed_and_soon_before_title (p : ProbePage)
    (hok : p.respOk = true) (hurl : urlLooksError p.finalUrl = false) :
    (p.removedVisible = true → checkBookStatus p = BookStatus.REMOVED) ∧
    (p.notAvailVisible = true → checkBookStatus p = BookStatus.REMOVED) ∧
    (p.removedVisible = false → p.notAvailVisible = false →
      containsStr p.pageContent soonNeedle = true →
      checkBookStatus p = BookStatus.AVAILABLE_SOON) := by
  have hdead : containsStr (lowerStr "") removedNeedle = false := by decide
  refine ⟨fun hrem => ?_, fun hna => ?_, fun hrem hna hsoon => ?_⟩
  · simp [checkBookStatus, hok, hurl, hrem]
  · by_cases hrem : p.removedVisible
    · simp [checkBookStatus, hok, hurl, hrem]
    · simp only [Bool.not_eq_true] at hrem
      simp [checkBookStatus, hok, hurl, hrem, hna, hdead]
  · have hsoon2 : containsStr (lowerStr p.pageContent) soonNeedleLower = true := by
      have hmap := containsSub_map asciiLower p.pageContent.data soonNeedle.data hsoon
      have heq : soonNeedle.data.map asciiLower = soonNeedleLower.data := by decide
      rw [heq] at hmap
      exact hmap
    simp [checkBookStatus, hok, hurl, hrem, hna, hdead, hsoon2]

/-- Witness for C6: a removed-flag page with a stale title probes REMOVED,
and an available-soon page with a stale title probes AVAILABLE_SOON. -/
theorem removed_and_soon_before_title_witness :
    checkBookStatus demoRemovedPage = BookStatus.REMOVED ∧
    checkBookStatus demoSoonPage = BookStatus.AVAILABLE_SOON :=
  ⟨(removed_and_soon_before_title demoRemovedPage rfl (by decide)).1 rfl,
   (removed_and_soon_before_title demoSoonPage rfl (by decide)).2.2 rfl rfl (by decide)⟩

/-- Helper: the sextet encoding and decoding of the base64 alphabet are
mutually inverse below 64. -/
theorem sextet_roundtrip : ∀ n < 64, sextetVal (sextetChar n) = n := by decide

/-- Helper: no sextet character is the padding character. -/
theorem sextetChar_ne_pad (n : Nat) : sextetChar n ≠ '=' := by
  by_cases h : n < 64
  · exact (by decide : ∀ m < 64, sextetChar m ≠ '=') n h
  · have hlen : b64Alphabet.length = 64 := by decide
    have hnone : b64Alphabet[n]? = none := by
      apply List.getElem?_eq_none
      omega
    have : sextetChar n = 'A' := by
      unfold sextetChar
      rw [List.getD_eq_getElem?_getD, hnone]
      rfl
    rw [this]
    decide

/-- Helper: base64 decoding inverts base64 encoding on byte lists. -/
theorem b64_roundtrip : ∀ bs : List Nat, (∀ b ∈ bs, b < 256) →
    b64decode (b64encode bs) = bs
  | [], _ => rfl
  | [a], h => by
    have ha : a < 256 := h a (by simp)
    have h1 : a / 4 < 64 := by omega
    have h2 : a % 4 * 16 < 64 := by omega
    simp only [b64encode, b64decode, if_pos rfl, if_true]
    rw [sextet_roundtrip _ h1, sextet_roundtrip _ h2]
    simp only [List.cons.injEq, and_true]
    omega
  | [a, b], h => by
    have ha : a < 256 := h a (by simp)
    have hb : b < 256 := h b (by simp)
    have h1 : a / 4 < 64 := by omega
    have h2 : a % 4 * 16 + b / 16 < 64 := by omega
    have h3 : b % 16 * 4 < 64 := by omega
    have hne : sextetChar (b % 16 * 4) ≠ '=' := sextetChar_ne_pad _
    simp only [b64encode, b64decode, if_neg hne, if_pos rfl, if_true]
    rw [sextet_roundtrip _ h1, sextet_roundtrip _ h2, sextet_roundtrip _ h3]
    simp only [List.cons.injEq, and_true]
    constructor <;> omega
  | a :: b :: c :: rest, h => by
    have ha : a < 256 := h a (by simp)
    have hb : b < 256 := h b (by simp)
    have hc : c < 256 := h c (by simp)
    have h1 : a / 4 < 64 := by omega
    have h2 : a % 4 * 16 + b / 16 < 64 := by omega
    have h3 : b % 16 * 4 + c / 64 < 64 := by omega
    have h4 : c % 64 < 64 := by omega
    have hne3 : sextetChar (b % 16 * 4 + c / 64) ≠ '=' := sextetChar_ne_pad _
    have hne4 : sextetChar (c % 64) ≠ '=' := sextetChar_ne_pad _
    have ih := b64_roundtrip rest (fun x hx => h x (by simp [hx]))
    simp only [b64encode, b64decode, if_neg hne3, if_neg hne4]
    rw [sextet_roundtrip _ h1, sextet_roundtrip _ h2, sextet_roundtrip _ h3,
      sextet_roundtrip _ h4, ih]
    simp only [List.cons.injEq]
    refine ⟨by omega, by omega, by omega, trivial⟩

/-- Helper: every code unit of the XOR key is ASCII. -/
theorem keyAt_lt (i : Nat) : keyAt i < 128 := by
  have hlen : keyCodes.length = 18 := by decide
  have hidx : i % keyCodes.length < 18 := by
    rw [hlen]
    exact Nat.mod_lt _ (by omega)
  have hall : ∀ j < 18, keyCodes.getD j 0 < 128 := by decide
  exact hall _ hidx

/-- Helper: XOR of two ASCII values is ASCII. -/
theorem xor_lt_128 {x y : Nat} (hx : x < 128) (hy : y < 128) : x ^^^ y < 128 := by
  have h : Nat.bitwise bne x y < 2 ^ 7 :=
    Nat.bitwise_lt_two_pow (by omega) (by omega)
  have h2 : (2 : Nat) ^ 7 = 128 := by norm_num
  rw [h2] at h
  exact h

/-- Helper: XOR against the key keeps ASCII inputs ASCII. -/
theorem xorFrom_lt : ∀ (i : Nat) (l : List Nat), (∀ c ∈ l, c < 128) →
    ∀ b ∈ xorFrom i l, b < 128
  | _, [], _ => by simp [xorFrom]
  | i, c :: cs, h => by
    simp only [xorFrom, List.mem_cons]
    rintro b (rfl | hb)
    · exact xor_lt_128 (h c (by simp)) (keyAt_lt i)
    · exact xorFrom_lt (i + 1) cs (fun x hx => h x (by simp [hx])) b hb

/-- Helper: the keyed XOR pass is an involution at every start index. -/
theorem xorFrom_invol : ∀ (l : List Nat) (i : Nat), xorFrom i (xorFrom i l) = l
  | [], _ => rfl
  | c :: cs, i => by
    simp only [xorFrom, List.cons.injEq]
    exact ⟨by rw [Nat.xor_assoc, Nat.xor_self, Nat.xor_zero], xorFrom_invol cs (i + 1)⟩

/-- Helper: UTF-8 encoding is the identity on ASCII code-unit lists. -/
theorem utf8_encode_ascii : ∀ l : List Nat, (∀ c ∈ l, c < 128) →
    utf8EncodeList l = l
  | [], _ => rfl
  | c :: cs, h => by
    have hc : c < 128 := h c (by simp)
    simp [utf8EncodeList, utf8EncodeChar, hc,
      utf8_encode_ascii cs (fun x hx => h x (by simp [hx]))]

/-- Helper: UTF-8 decoding is the identity on ASCII byte lists. -/
theorem utf8_decode_ascii : ∀ l : List Nat, (∀ c ∈ l, c < 128) →
    utf8Decode l = l
  | [], _ => rfl
  | [b], h => by
    have hb : b < 128 := h b (by simp)
    simp [utf8Decode, hb]
  | [b, b2], h => by
    have hb : b < 128 := h b (by simp)
    have hb2 : b2 < 128 := h b2 (by simp)
    simp [utf8Decode, hb, hb2]
  | b :: b2 :: b3 :: rest, h => by
    have hb : b < 128 := h b (by simp)
    have ih := utf8_decode_ascii (b2 :: b3 :: rest)
      (fun x hx => h x (List.mem_cons_of_mem _ hx))
    simp [utf8Decode, hb, ih]

/-- C10: the credential obfuscation codec round-trips every ASCII string:
decoding the encoding of any code-unit list below 128 returns it
unchanged, so saved email and password reload exactly. -/
theorem credentials_roundtrip (codes : List Nat)
    (h : ∀ c ∈ codes, c < 128) : decode (encode codes) = codes := by
  have hx : ∀ b ∈ xorWithKey codes, b < 128 := xorFrom_lt 0 codes h
  unfold encode decode
  rw [utf8_encode_ascii _ hx,
    b64_roundtrip _ (fun b hb => lt_trans (hx b hb) (by norm_num)),
    utf8_decode_ascii _ hx]
  exact xorFrom_invol codes 0

/-- Witness for C10 on the ASCII code units of the string hello. -/
theorem credentials_roundtrip_witness :
    (∀ c ∈ ([104, 101, 108, 108, 111] : List Nat), c < 128) ∧
    decode (encode ([104, 101, 108, 108, 111] : List Nat)) =
      [104, 101, 108, 108, 111] :=
  ⟨by decide, credentials_roundtrip _ (by decide)⟩

end VoxFetch
